import Mathlib

/-!
Shallow embedding of `src/main.py` (Tasks API: a FastAPI + SQLAlchemy CRUD
service over a single `tasks` table), together with theorems checking the
natural-language specification against it.

Modelling conventions:
* A database row (`TaskModel`) is a `Task`; the table is a `Store`: the list of
  rows in insertion order plus the next id the store will assign
  (SQLite assigns `max(rowid)+1`, so ids grow with insertion order; the
  well-formedness predicate `Store.WF` records exactly that).
* Timestamps (`datetime.utcnow`) are `Nat`s supplied by the caller as `now`.
* Pydantic validation (`Field` constraints) is an explicit boolean check run
  before the handler body, as FastAPI does; a failure is a 422 response and the
  handler never runs.  Python `len` on `str` counts characters, as
  `String.length` does.
* `HTTPException` carries the status code and detail string of the Python
  exception; a handler returns `Except HTTPException` plus the store after the
  request.
* `skip`/`limit` are `Nat` following the repository contract (`skip ≥ 0`,
  `limit ≥ 0`); negative query values are handed to the database engine, whose
  treatment is outside this embedding.
-/

namespace TasksApi

/-- The values accepted by the pydantic pattern `^(low|medium|high)$`
(`TaskBase.priority`, `TaskUpdate.priority` in `src/main.py`). -/
def allowedPriorities : List String := ["low", "medium", "high"]

/-- A row of the `tasks` table (`TaskModel` in `src/main.py`):
`id`, `title` (NOT NULL), `description` (nullable), `completed`, `priority`,
`created_at`, `updated_at`. -/
structure Task where
  id : Int
  title : String
  description : Option String
  completed : Bool
  priority : String
  created_at : Nat
  updated_at : Nat
deriving Repr, DecidableEq

/-- The persistent state: the `tasks` table rows in insertion order and the id
the store assigns to the next inserted row. -/
structure Store where
  rows : List Task
  nextId : Int
deriving Repr, DecidableEq

/-- Well-formedness of the store, as SQLite maintains it for an integer
primary key: row ids strictly increase in insertion order and every id is
below the next id to be assigned. -/
def Store.WF (s : Store) : Prop :=
  s.rows.Pairwise (fun a b => a.id < b.id) ∧ ∀ t ∈ s.rows, t.id < s.nextId

/-- An HTTP error response (`fastapi.HTTPException`). -/
structure HTTPException where
  status_code : Nat
  detail : String
deriving Repr, DecidableEq

/-- The 404 detail string `f"Task with id {task_id} not found"` used by
`get_task`, `update_task` and `delete_task` in `src/main.py`. -/
def notFoundDetail (task_id : Int) : String :=
  "Task with id " ++ toString task_id ++ " not found"

/-- The inbound JSON body of `POST /tasks` as pydantic sees it: `title`
required, the other fields optional (`none` = absent from the JSON object). -/
structure TaskCreatePayload where
  title : String
  description : Option String
  completed : Option Bool
  priority : Option String
deriving Repr, DecidableEq

/-- Pydantic validation of `TaskCreate` (`TaskBase` in `src/main.py`):
`title` has `min_length=1, max_length=255`; `description` has
`max_length=1000`; `priority` must match `^(low|medium|high)$`.  Absent
optional fields are not checked (their defaults apply). -/
def validCreate (p : TaskCreatePayload) : Bool :=
  decide (1 ≤ p.title.length) && decide (p.title.length ≤ 255)
  && (match p.description with
      | none => true
      | some d => decide (d.length ≤ 1000))
  && (match p.priority with
      | none => true
      | some pr => allowedPriorities.contains pr)

/-- The validated create model after pydantic fills defaults
(`completed = False`, `priority = "medium"`, `description = None`); this is
what `task.model_dump()` yields in `create_task`. -/
structure TaskCreate where
  title : String
  description : Option String
  completed : Bool
  priority : String
deriving Repr, DecidableEq

/-- Applies the pydantic field defaults of `TaskBase` to an inbound payload. -/
def applyDefaults (p : TaskCreatePayload) : TaskCreate :=
  { title := p.title
    description := p.description
    completed := p.completed.getD false
    priority := p.priority.getD "medium" }

/-- The inbound JSON body of `PUT /tasks/{id}` (`TaskUpdate` in
`src/main.py`).  `none` means the field was absent from the JSON object, so
`model_dump(exclude_unset=True)` drops it.  `description` is doubly optional:
`some none` is an explicit JSON `null`, which clears the stored description.
(An explicit `null` for `title`/`completed`/`priority` passes pydantic but
makes the NOT NULL column or the response schema blow up with a 5xx, the
spec's `StoreUnavailable` bucket, so those requests are outside this model.) -/
structure TaskUpdate where
  title : Option String
  description : Option (Option String)
  completed : Option Bool
  priority : Option String
deriving Repr, DecidableEq

/-- Pydantic validation of `TaskUpdate`: each constraint applies only when the
field is present (and, for `description`, non-null). -/
def validUpdate (u : TaskUpdate) : Bool :=
  (match u.title with
   | none => true
   | some t => decide (1 ≤ t.length) && decide (t.length ≤ 255))
  && (match u.description with
      | none => true
      | some none => true
      | some (some d) => decide (d.length ≤ 1000))
  && (match u.priority with
      | none => true
      | some pr => allowedPriorities.contains pr)

/-- True when `model_dump(exclude_unset=True)` is the empty dict: no field was
supplied, so the `for field, value in update_data.items()` loop in
`update_task` runs zero times and the commit issues no UPDATE. -/
def TaskUpdate.isEmpty (u : TaskUpdate) : Bool :=
  u.title.isNone && u.description.isNone && u.completed.isNone && u.priority.isNone

/-- The `setattr(db_task, field, value)` loop of `update_task`: each field
present in `model_dump(exclude_unset=True)` overwrites the row's field; absent
fields are untouched. -/
def applyUpdate (u : TaskUpdate) (t : Task) : Task :=
  { t with
    title := u.title.getD t.title
    description := match u.description with
      | none => t.description
      | some d => d
    completed := u.completed.getD t.completed
    priority := u.priority.getD t.priority }

/-- The list response body (`TaskListResponse` in `src/main.py`). -/
structure TaskListResponse where
  tasks : List Task
  total : Nat
deriving Repr, DecidableEq

/-- The row predicate built by the two `query.filter` calls of `list_tasks`:
`if completed is not None:` adds the completed filter; `if priority:` adds the
priority filter only when `priority` is truthy, i.e. present AND non-empty. -/
def matchesFilters (completed : Option Bool) (priority : Option String) (t : Task) : Bool :=
  (match completed with
   | none => true
   | some c => t.completed == c)
  && (match priority with
      | none => true
      | some p => if p = "" then true else t.priority == p)

/-- Endpoint `GET /tasks` (`list_tasks` in `src/main.py`): filter, count the full
match for `total`, then return the `offset(skip).limit(limit)` page. -/
def list_tasks (skip limit : Nat) (completed : Option Bool) (priority : Option String)
    (s : Store) : TaskListResponse :=
  let query := s.rows.filter (matchesFilters completed priority)
  { tasks := (query.drop skip).take limit, total := query.length }

/-- The `GET /tasks` handler never raises: whatever the query parameters, it
responds 200 with the list body. -/
def list_tasks_endpoint (skip limit : Nat) (completed : Option Bool)
    (priority : Option String) (s : Store) : Nat × TaskListResponse :=
  (200, list_tasks skip limit completed priority s)

/-- Endpoint `GET /tasks/{id}` (`get_task` in `src/main.py`):
`query.filter(TaskModel.id == task_id).first()`, 404 when no row matches. -/
def get_task (task_id : Int) (s : Store) : Except HTTPException Task :=
  match s.rows.find? (fun t => t.id == task_id) with
  | some task => .ok task
  | none => .error ⟨404, notFoundDetail task_id⟩

/-- The body of `create_task` in `src/main.py` after validation:
`TaskModel(**task.model_dump())` plus `db.add/commit/refresh`.  The store
assigns `nextId` and sets both timestamp columns to `now`
(`default=datetime.utcnow`). -/
def create_task (task : TaskCreate) (now : Nat) (s : Store) : Task × Store :=
  let db_task : Task :=
    { id := s.nextId
      title := task.title
      description := task.description
      completed := task.completed
      priority := task.priority
      created_at := now
      updated_at := now }
  (db_task, { rows := s.rows ++ [db_task], nextId := s.nextId + 1 })

/-- Endpoint `POST /tasks`: pydantic validation first (422 and untouched store on
failure, the handler body never runs), then `create_task` and a 201. -/
def create_task_endpoint (p : TaskCreatePayload) (now : Nat) (s : Store) :
    Except HTTPException (Nat × Task) × Store :=
  if validCreate p then
    let r := create_task (applyDefaults p) now s
    (.ok (201, r.1), r.2)
  else
    (.error ⟨422, "validation error"⟩, s)

/-- The body of `update_task` in `src/main.py` after validation: find the row
(404 if absent), `setattr` each field of `model_dump(exclude_unset=True)`,
commit.  The `onupdate=datetime.utcnow` column default refreshes `updated_at`
exactly when the commit issues an UPDATE, i.e. when some field was supplied. -/
def update_task (task_id : Int) (u : TaskUpdate) (now : Nat) (s : Store) :
    Except HTTPException (Task × Store) :=
  match s.rows.find? (fun t => t.id == task_id) with
  | none => .error ⟨404, notFoundDetail task_id⟩
  | some db_task =>
      let t1 := applyUpdate u db_task
      let t2 := if u.isEmpty then t1 else { t1 with updated_at := now }
      .ok (t2, { s with rows := s.rows.map (fun t => if t.id == task_id then t2 else t) })

/-- Endpoint `PUT /tasks/{id}`: pydantic validation first (422 and untouched store on
failure), then `update_task`; 404 leaves the store untouched. -/
def update_task_endpoint (task_id : Int) (u : TaskUpdate) (now : Nat) (s : Store) :
    Except HTTPException Task × Store :=
  if validUpdate u then
    match update_task task_id u now s with
    | .ok r => (.ok r.1, r.2)
    | .error e => (.error e, s)
  else
    (.error ⟨422, "validation error"⟩, s)

/-- Endpoint `DELETE /tasks/{id}` (`delete_task` in `src/main.py`): find the row
(404 naming the id if absent), delete it, respond with the message body. -/
def delete_task (task_id : Int) (s : Store) : Except HTTPException (String × Store) :=
  match s.rows.find? (fun t => t.id == task_id) with
  | none => .error ⟨404, notFoundDetail task_id⟩
  | some _ =>
      .ok ("Task " ++ toString task_id ++ " deleted successfully",
        { s with rows := s.rows.filter (fun t => !(t.id == task_id)) })

/-- Modelled from the spec: the repository operation
`deleteCompleted() → count` behind `DELETE /tasks` (absent from
`src/main.py`; the spec is the only description) — "removes all rows where
`completed = true`; returns count removed (0 if none)". -/
def deleteCompleted (s : Store) : Nat × Store :=
  ((s.rows.filter (fun t => t.completed)).length,
   { s with rows := s.rows.filter (fun t => !t.completed) })

/-- Modelled from the spec: the `DELETE /tasks` handler — 200 with
`{message: "Deleted N completed tasks"}`. -/
def delete_completed_endpoint (s : Store) : (Nat × String) × Store :=
  let r := deleteCompleted s
  ((200, "Deleted " ++ toString r.1 ++ " completed tasks"), r.2)

/-! ## Concrete fixtures used by the witness theorems -/

/-- A completed task row, as witness data. -/
def wTask1 : Task :=
  { id := 1, title := "A", description := none, completed := true,
    priority := "high", created_at := 0, updated_at := 0 }

/-- A pending task row, as witness data. -/
def wTask2 : Task :=
  { id := 2, title := "B", description := some "d", completed := false,
    priority := "low", created_at := 1, updated_at := 1 }

/-- A two-row store (one completed, one pending task), as witness data. -/
def wStore2 : Store := { rows := [wTask1, wTask2], nextId := 3 }

/-! ## Theorems -/

/-- C1: the bulk delete-completed operation (`DELETE /tasks`, modelled from
the spec) responds 200 with the "Deleted N completed tasks" message, removes
exactly the set of tasks with `completed = true` (leaving every other row in
place), reports the count removed (0 if none), and a second call in a row
deletes 0. -/
theorem deleteCompleted_exact (s : Store) :
    (delete_completed_endpoint s).1.1 = 200 ∧
    (delete_completed_endpoint s).1.2 =
      "Deleted " ++ toString (deleteCompleted s).1 ++ " completed tasks" ∧
    (deleteCompleted s).1 = (s.rows.filter (fun t => t.completed)).length ∧
    (deleteCompleted s).2.rows = s.rows.filter (fun t => !t.completed) ∧
    (∀ t ∈ s.rows, t.completed = false → t ∈ (deleteCompleted s).2.rows) ∧
    (∀ t ∈ (deleteCompleted s).2.rows, t.completed = false ∧ t ∈ s.rows) ∧
    (deleteCompleted (deleteCompleted s).2).1 = 0 := by
  refine ⟨rfl, rfl, rfl, rfl, ?_, ?_, ?_⟩
  · intro t ht hc
    simp [deleteCompleted, List.mem_filter, ht, hc]
  · intro t ht
    simp only [deleteCompleted, List.mem_filter, Bool.not_eq_true'] at ht
    exact ⟨ht.2, ht.1⟩
  · simp only [deleteCompleted, List.filter_filter]
    rw [List.length_eq_zero, List.filter_eq_nil_iff]
    intro t _
    cases h : t.completed <;> simp [h]

/-- C1 witness: on a store holding one completed and one pending task the
operation deletes exactly the completed one and the second call deletes 0. -/
theorem deleteCompleted_exact_witness :
    (delete_completed_endpoint wStore2).1.1 = 200 ∧
    (delete_completed_endpoint wStore2).1.2 =
      "Deleted " ++ toString (deleteCompleted wStore2).1 ++ " completed tasks" ∧
    (deleteCompleted wStore2).1 = (wStore2.rows.filter (fun t => t.completed)).length ∧
    (deleteCompleted wStore2).2.rows = wStore2.rows.filter (fun t => !t.completed) ∧
    (∀ t ∈ wStore2.rows, t.completed = false → t ∈ (deleteCompleted wStore2).2.rows) ∧
    (∀ t ∈ (deleteCompleted wStore2).2.rows, t.completed = false ∧ t ∈ wStore2.rows) ∧
    (deleteCompleted (deleteCompleted wStore2).2).1 = 0 :=
  deleteCompleted_exact wStore2

/-- C6: a create payload whose title is empty or longer than 255 characters,
or whose description is longer than 1000 characters, or whose priority is
present and outside {low, medium, high}, is rejected with 422 and the store is
unchanged (no row created). -/
theorem create_invalid_rejected (p : TaskCreatePayload) (now : Nat) (s : Store)
    (h : p.title.length = 0 ∨ 255 < p.title.length ∨
      (∃ d, p.description = some d ∧ 1000 < d.length) ∨
      (∃ pr, p.priority = some pr ∧ pr ∉ allowedPriorities)) :
    create_task_endpoint p now s = (.error ⟨422, "validation error"⟩, s) := by
  have hv : ¬ validCreate p = true := by
    intro hvt
    simp only [validCreate, Bool.and_eq_true, decide_eq_true_eq] at hvt
    obtain ⟨⟨⟨h1, h2⟩, h3⟩, h4⟩ := hvt
    rcases h with h | h | ⟨d, hd, hlen⟩ | ⟨pr, hpr, hmem⟩
    · omega
    · omega
    · rw [hd] at h3
      simp only [decide_eq_true_eq] at h3
      omega
    · rw [hpr] at h4
      exact hmem (by simpa using h4)
  simp [create_task_endpoint, hv]

/-- C6 witness: `priority:"urgent"` is rejected with 422 and the store stays
as it was. -/
theorem create_invalid_rejected_witness :
    create_task_endpoint
        { title := "A", description := none, completed := none, priority := some "urgent" }
        5 wStore2
      = (.error ⟨422, "validation error"⟩, wStore2) :=
  create_invalid_rejected _ 5 wStore2 (Or.inr (Or.inr (Or.inr ⟨"urgent", rfl, by decide⟩)))

/-- C7: for an id with no corresponding row, `get`, `update` (with any payload
that passes validation) and `delete` all fail with 404 carrying the detail
string that names the id, and the store is unchanged (delete is not a silent
no-op). -/
theorem missing_id_yields_404 (task_id : Int) (u : TaskUpdate) (now : Nat) (s : Store)
    (habsent : ∀ t ∈ s.rows, t.id ≠ task_id)
    (hu : validUpdate u = true) :
    get_task task_id s = .error ⟨404, notFoundDetail task_id⟩ ∧
    update_task_endpoint task_id u now s = (.error ⟨404, notFoundDetail task_id⟩, s) ∧
    delete_task task_id s = .error ⟨404, notFoundDetail task_id⟩ := by
  have hfind : s.rows.find? (fun t => t.id == task_id) = none := by
    rw [List.find?_eq_none]
    intro t ht
    simpa using habsent t ht
  refine ⟨?_, ?_, ?_⟩
  · simp [get_task, hfind]
  · simp [update_task_endpoint, update_task, hu, hfind]
  · simp [delete_task, hfind]

/-- C7 witness: id 9 is absent from the two-row store; all three operations
return the 404 with the detail naming id 9. -/
theorem missing_id_yields_404_witness :
    get_task 9 wStore2 = .error ⟨404, notFoundDetail 9⟩ ∧
    update_task_endpoint 9 ({ title := some "C", description := none,
                              completed := none, priority := none }) 7 wStore2
      = (.error ⟨404, notFoundDetail 9⟩, wStore2) ∧
    delete_task 9 wStore2 = .error ⟨404, notFoundDetail 9⟩ :=
  missing_id_yields_404 9 _ 7 wStore2 (by decide) (by decide)

/-- C8: a create payload supplying only a title (description, completed and
priority omitted) succeeds with 201 and the created task has
`completed = false`, `priority = "medium"`, `description = null`; when an
allowed priority (e.g. "high") is supplied the created task carries exactly
that value. -/
theorem create_applies_defaults (title pr : String) (now : Nat) (s : Store)
    (h1 : 1 ≤ title.length) (h2 : title.length ≤ 255) :
    create_task_endpoint ({ title := title, description := none, completed := none,
                            priority := none }) now s
      = (.ok (201, { id := s.nextId, title := title, description := none,
                     completed := false, priority := "medium", created_at := now,
                     updated_at := now }),
         { rows := s.rows ++ [{ id := s.nextId, title := title, description := none,
                                completed := false, priority := "medium", created_at := now,
                                updated_at := now }],
           nextId := s.nextId + 1 }) ∧
    (pr ∈ allowedPriorities →
      create_task_endpoint ({ title := title, description := none, completed := none,
                              priority := some pr }) now s
        = (.ok (201, { id := s.nextId, title := title, description := none,
                       completed := false, priority := pr, created_at := now,
                       updated_at := now }),
           { rows := s.rows ++ [{ id := s.nextId, title := title, description := none,
                                  completed := false, priority := pr, created_at := now,
                                  updated_at := now }],
             nextId := s.nextId + 1 })) := by
  constructor
  · have hv : validCreate { title := title, description := none, completed := none,
                            priority := none } = true := by
      simp [validCreate, h1, h2]
    simp [create_task_endpoint, hv, create_task, applyDefaults]
  · intro hpr
    have hv : validCreate { title := title, description := none, completed := none,
                            priority := some pr } = true := by
      simp [validCreate, h1, h2, hpr]
    simp [create_task_endpoint, hv, create_task, applyDefaults]

/-- C8 witness: creating `{title:"A"}` yields the defaults, and
`{title:"A", priority:"high"}` carries priority "high". -/
theorem create_applies_defaults_witness :
    create_task_endpoint ({ title := "A", description := none, completed := none,
                            priority := none }) 5 wStore2
      = (.ok (201, { id := 3, title := "A", description := none, completed := false,
                     priority := "medium", created_at := 5, updated_at := 5 }),
         { rows := wStore2.rows ++ [{ id := 3, title := "A", description := none,
                                      completed := false, priority := "medium",
                                      created_at := 5, updated_at := 5 }],
           nextId := 4 }) ∧
    ("high" ∈ allowedPriorities →
      create_task_endpoint ({ title := "A", description := none, completed := none,
                              priority := some "high" }) 5 wStore2
        = (.ok (201, { id := 3, title := "A", description := none, completed := false,
                       priority := "high", created_at := 5, updated_at := 5 }),
           { rows := wStore2.rows ++ [{ id := 3, title := "A", description := none,
                                        completed := false, priority := "high",
                                        created_at := 5, updated_at := 5 }],
             nextId := 4 })) :=
  create_applies_defaults "A" "high" 5 wStore2 (by decide) (by decide)

/-- C9: a successful update of an existing task (empty payload included)
leaves `updated_at` at a value ≥ its pre-update value — the commit's
`onupdate` hook stamps `now` whenever a field was supplied, and an empty
payload leaves the row untouched — and `created_at` is never altered. -/
theorem update_refreshes_updated_at (task_id : Int) (u : TaskUpdate) (now : Nat)
    (s : Store) (t : Task)
    (hu : validUpdate u = true)
    (hfind : s.rows.find? (fun r => r.id == task_id) = some t)
    (hclock : t.updated_at ≤ now) :
    ∃ t' s', update_task_endpoint task_id u now s = (.ok t', s') ∧
      t.updated_at ≤ t'.updated_at ∧ t'.created_at = t.created_at := by
  simp only [update_task_endpoint, hu, if_true, update_task, hfind]
  refine ⟨_, _, rfl, ?_, ?_⟩
  · cases he : u.isEmpty <;> simp [he, applyUpdate, hclock]
  · cases he : u.isEmpty <;> simp [he, applyUpdate]

/-- C9 witness: updating task 1 of the two-row store with an empty payload at
time 4 keeps `updated_at` ≥ its old value and `created_at` intact. -/
theorem update_refreshes_updated_at_witness :
    ∃ t' s', update_task_endpoint 1 ({ title := none, description := none,
                                       completed := none, priority := none }) 4 wStore2
        = (.ok t', s') ∧
      wTask1.updated_at ≤ t'.updated_at ∧ t'.created_at = wTask1.created_at :=
  update_refreshes_updated_at 1 _ 4 wStore2 wTask1 (by decide) (by decide) (by decide)

/-- C2: for an existing task and a validated partial payload, the update
applies exactly the supplied fields: each omitted field keeps its pre-update
value and each present field is set to exactly the supplied value, with `id`
and `created_at` untouched. -/
theorem update_applies_exactly (task_id : Int) (u : TaskUpdate) (now : Nat)
    (s : Store) (t : Task)
    (hu : validUpdate u = true)
    (hfind : s.rows.find? (fun r => r.id == task_id) = some t) :
    ∃ t' s', update_task_endpoint task_id u now s = (.ok t', s') ∧
      t'.id = t.id ∧ t'.created_at = t.created_at ∧
      (u.title = none → t'.title = t.title) ∧
      (∀ v, u.title = some v → t'.title = v) ∧
      (u.description = none → t'.description = t.description) ∧
      (∀ v, u.description = some v → t'.description = v) ∧
      (u.completed = none → t'.completed = t.completed) ∧
      (∀ v, u.completed = some v → t'.completed = v) ∧
      (u.priority = none → t'.priority = t.priority) ∧
      (∀ v, u.priority = some v → t'.priority = v) := by
  simp only [update_task_endpoint, hu, if_true, update_task, hfind]
  refine ⟨_, _, rfl, ?_, ?_, ?_, ?_, ?_, ?_, ?_, ?_, ?_, ?_⟩
  all_goals cases he : u.isEmpty
  all_goals simp only [he, if_true, if_false, Bool.false_eq_true, applyUpdate]
  all_goals intros
  all_goals simp_all [applyUpdate]

/-- C2 witness: updating task 2 with `{title:"B2", completed:true}` sets
exactly those two fields and leaves description and priority at their old
values. -/
theorem update_applies_exactly_witness :
    ∃ t' s', update_task_endpoint 2 ({ title := some "B2", description := none,
                                       completed := some true, priority := none }) 9 wStore2
        = (.ok t', s') ∧
      t'.id = wTask2.id ∧ t'.created_at = wTask2.created_at ∧
      ((some "B2" : Option String) = none → t'.title = wTask2.title) ∧
      (∀ v, (some "B2" : Option String) = some v → t'.title = v) ∧
      ((none : Option (Option String)) = none → t'.description = wTask2.description) ∧
      (∀ v, (none : Option (Option String)) = some v → t'.description = v) ∧
      ((some true : Option Bool) = none → t'.completed = wTask2.completed) ∧
      (∀ v, (some true : Option Bool) = some v → t'.completed = v) ∧
      ((none : Option String) = none → t'.priority = wTask2.priority) ∧
      (∀ v, (none : Option String) = some v → t'.priority = v) :=
  update_applies_exactly 2 _ 9 wStore2 wTask2 (by decide) (by decide)

/-- C5: after a valid create on a well-formed store, getting the new task's id
returns exactly the task object the create returned (all seven fields
equal). -/
theorem get_after_create (p : TaskCreatePayload) (now : Nat) (s : Store)
    (hwf : s.WF) (hv : validCreate p = true) :
    ∃ t s', create_task_endpoint p now s = (.ok (201, t), s') ∧
      get_task t.id s' = .ok t := by
  have hnone : s.rows.find? (fun r => r.id == s.nextId) = none := by
    rw [List.find?_eq_none]
    intro t ht
    have := hwf.2 t ht
    simp only [beq_iff_eq]
    omega
  simp only [create_task_endpoint, hv, if_true, create_task]
  refine ⟨_, _, rfl, ?_⟩
  simp [get_task, List.find?_append, hnone]

/-- C5 witness: creating `{title:"A", priority:"high"}` on the two-row store
and then getting the returned id yields the same object. -/
theorem get_after_create_witness :
    ∃ t s', create_task_endpoint ({ title := "A", description := none,
                                    completed := none, priority := some "high" }) 7 wStore2
        = (.ok (201, t), s') ∧
      get_task t.id s' = .ok t :=
  get_after_create _ 7 wStore2 (by constructor <;> decide) (by decide)

/-- C3: every task returned by list matches the active filters (with
`completed=true` every returned task has `completed = true`), and `total`
equals the number of all matching rows regardless of the skip/limit page
actually returned. -/
theorem list_matches_filters_and_total (skip limit : Nat) (completed : Option Bool)
    (priority : Option String) (s : Store) :
    (∀ t ∈ (list_tasks skip limit completed priority s).tasks,
        matchesFilters completed priority t = true) ∧
    (completed = some true →
      ∀ t ∈ (list_tasks skip limit completed priority s).tasks, t.completed = true) ∧
    (list_tasks skip limit completed priority s).total
      = (s.rows.filter (matchesFilters completed priority)).length := by
  have hmem : ∀ t ∈ (list_tasks skip limit completed priority s).tasks,
      matchesFilters completed priority t = true := by
    intro t ht
    simp only [list_tasks] at ht
    have hsub : List.Sublist
        (((s.rows.filter (matchesFilters completed priority)).drop skip).take limit)
        (s.rows.filter (matchesFilters completed priority)) :=
      (List.take_sublist _ _).trans (List.drop_sublist _ _)
    exact (List.mem_filter.mp (hsub.subset ht)).2
  refine ⟨hmem, ?_, rfl⟩
  intro hc t ht
  have hm := hmem t ht
  rw [hc] at hm
  simp only [matchesFilters, Bool.and_eq_true] at hm
  simpa using hm.1

/-- C3 witness: listing the two-row store with `completed=true` returns only
matching tasks and a total equal to the full matching count. -/
theorem list_matches_filters_and_total_witness :
    (∀ t ∈ (list_tasks 0 100 (some true) none wStore2).tasks,
        matchesFilters (some true) none t = true) ∧
    ((some true : Option Bool) = some true →
      ∀ t ∈ (list_tasks 0 100 (some true) none wStore2).tasks, t.completed = true) ∧
    (list_tasks 0 100 (some true) none wStore2).total
      = (wStore2.rows.filter (matchesFilters (some true) none)).length :=
  list_matches_filters_and_total 0 100 (some true) none wStore2

/-- C4: on a well-formed store the page list returns is the contiguous slice
of the filtered sequence starting at index `skip` with at most `limit`
elements, and that sequence is in stable insertion order with strictly
ascending ids. -/
theorem list_page_ordered_slice (skip limit : Nat) (completed : Option Bool)
    (priority : Option String) (s : Store) (hwf : s.WF) :
    (list_tasks skip limit completed priority s).tasks
      = ((s.rows.filter (matchesFilters completed priority)).drop skip).take limit ∧
    (list_tasks skip limit completed priority s).tasks.length ≤ limit ∧
    ((list_tasks skip limit completed priority s).tasks).Pairwise (fun a b => a.id < b.id) ∧
    (∀ (i : Nat) (h : i < (list_tasks skip limit completed priority s).tasks.length)
       (h' : skip + i < (s.rows.filter (matchesFilters completed priority)).length),
       (list_tasks skip limit completed priority s).tasks.get ⟨i, h⟩
         = (s.rows.filter (matchesFilters completed priority)).get ⟨skip + i, h'⟩) := by
  refine ⟨rfl, ?_, ?_, ?_⟩
  · simp only [list_tasks]
    exact List.length_take_le _ _
  · have hsub : List.Sublist
        (((s.rows.filter (matchesFilters completed priority)).drop skip).take limit)
        s.rows :=
      ((List.take_sublist _ _).trans (List.drop_sublist _ _)).trans (List.filter_sublist _)
    exact hwf.1.sublist hsub
  · intro i h h'
    simp only [list_tasks] at h ⊢
    rw [List.get_eq_getElem, List.get_eq_getElem, List.getElem_take, List.getElem_drop]

/-- C4 witness: paging the two-row store with skip 1, limit 1 yields the slice
`[wTask2]`, ordered by ascending id. -/
theorem list_page_ordered_slice_witness :
    (list_tasks 1 1 none none wStore2).tasks
      = ((wStore2.rows.filter (matchesFilters none none)).drop 1).take 1 ∧
    (list_tasks 1 1 none none wStore2).tasks.length ≤ 1 ∧
    ((list_tasks 1 1 none none wStore2).tasks).Pairwise (fun a b => a.id < b.id) ∧
    (∀ (i : Nat) (h : i < (list_tasks 1 1 none none wStore2).tasks.length)
       (h' : 1 + i < (wStore2.rows.filter (matchesFilters none none)).length),
       (list_tasks 1 1 none none wStore2).tasks.get ⟨i, h⟩
         = (wStore2.rows.filter (matchesFilters none none)).get ⟨1 + i, h'⟩) :=
  list_page_ordered_slice 1 1 none none wStore2 (by constructor <;> decide)

/-- C10: the list handler never rejects a priority filter value — it responds
200 for every supplied string; the empty string behaves as if no priority
filter were given, and a non-empty value outside {low, medium, high} simply
matches no task of a store whose rows all carry allowed priorities. -/
theorem list_priority_never_rejects (skip limit : Nat) (completed : Option Bool)
    (p : String) (s : Store)
    (hall : ∀ t ∈ s.rows, t.priority ∈ allowedPriorities) :
    (list_tasks_endpoint skip limit completed (some p) s).1 = 200 ∧
    (p = "" →
      list_tasks skip limit completed (some p) s
        = list_tasks skip limit completed none s) ∧
    (p ≠ "" → p ∉ allowedPriorities →
      (list_tasks skip limit completed (some p) s).tasks = [] ∧
      (list_tasks skip limit completed (some p) s).total = 0) := by
  refine ⟨rfl, ?_, ?_⟩
  · intro hp
    subst hp
    have hcong : ∀ t ∈ s.rows,
        matchesFilters completed (some "") t = matchesFilters completed none t := by
      intro t _
      simp [matchesFilters]
    simp only [list_tasks]
    rw [List.filter_congr hcong]
  · intro hp hnp
    have hnil : s.rows.filter (matchesFilters completed (some p)) = [] := by
      rw [List.filter_eq_nil_iff]
      intro t ht hcontra
      simp only [matchesFilters, Bool.and_eq_true] at hcontra
      have h2 := hcontra.2
      rw [if_neg hp] at h2
      have : t.priority = p := by simpa using h2
      exact hnp (this ▸ hall t ht)
    constructor
    · simp [list_tasks, hnil]
    · simp [list_tasks, hnil]

/-- C10 witness: filtering the two-row store by `priority="urgent"` responds
200 with no tasks and total 0, and the empty-string filter equals no
filter. -/
theorem list_priority_never_rejects_witness :
    (list_tasks_endpoint 0 100 none (some "urgent") wStore2).1 = 200 ∧
    ("urgent" = "" →
      list_tasks 0 100 none (some "urgent") wStore2
        = list_tasks 0 100 none none wStore2) ∧
    ("urgent" ≠ "" → "urgent" ∉ allowedPriorities →
      (list_tasks 0 100 none (some "urgent") wStore2).tasks = [] ∧
      (list_tasks 0 100 none (some "urgent") wStore2).total = 0) :=
  list_priority_never_rejects 0 100 none "urgent" wStore2 (by decide)

end TasksApi
